import Mathlib

/-!
Verification development for `google/generativeai/types/retriever_types.py`,
the client-side data-access layer over the remote semantic-retriever service
(Corpus → Document → Chunk hierarchy).

The Python module is shallowly embedded: dynamically typed Python values are
modelled by the inductive `PyObj`; raised exceptions are modelled by the
`Except PyErr` monad; in-place mutation of an entity is modelled by explicit
state passing (a method that mutates `self` returns the final state of `self`
together with the outcome, so that the state at the moment an exception is
raised is observable).  A remote call is issued exactly when an operation
returns an `.ok` request value; an `.error` outcome means the request was
never constructed and no remote call was issued.

Python numeric scalars are modelled by `Int`; the `float(...)` coercion on
metadata values does not change the carried number and is modelled as the
identity, since no behaviour in this module distinguishes `3` from `3.0`.
-/

set_option maxRecDepth 10000

/-- A hashable Python dict key as used by the `_OPERATOR` / `_STATE` lookup
tables: either an int (proto enums are `IntEnum`s, so an enum key hashes and
compares equal to its numeric code and is represented by it) or a string. -/
inductive PyKey where
  | ik (n : Int)
  | sk (s : String)
deriving DecidableEq, Repr

/-- Python exceptions raised by this module (and by the library calls it
makes): `ValueError`, `KeyError`, `TypeError`, `AttributeError`. -/
inductive PyErr where
  | valueError (msg : String)
  | keyError (key : PyKey)
  | typeError (msg : String)
  | attributeError (attr : String)
deriving DecidableEq, Repr

/-- `glm.Condition.Operator` with its wire numeric codes (see `Operator.code`). -/
inductive Operator where
  | OPERATOR_UNSPECIFIED
  | LESS
  | LESS_EQUAL
  | EQUAL
  | GREATER_EQUAL
  | NOT_EQUAL
  | INCLUDES
  | EXCLUDES
deriving DecidableEq, Repr

/-- Numeric code of each `Operator` member in the wire protocol. -/
def Operator.code : Operator → Int
  | .OPERATOR_UNSPECIFIED => 0
  | .LESS => 1
  | .LESS_EQUAL => 2
  | .EQUAL => 3
  | .GREATER_EQUAL => 4
  | .NOT_EQUAL => 5
  | .INCLUDES => 6
  | .EXCLUDES => 7

/-- `glm.Chunk.State` with its wire numeric codes (see `ChunkState.code`). -/
inductive ChunkState where
  | STATE_UNSPECIFIED
  | STATE_PENDING_PROCESSING
  | STATE_ACTIVE
  | STATE_FAILED
deriving DecidableEq, Repr

/-- Numeric code of each `ChunkState` member in the wire protocol. -/
def ChunkState.code : ChunkState → Int
  | .STATE_UNSPECIFIED => 0
  | .STATE_PENDING_PROCESSING => 1
  | .STATE_ACTIVE => 2
  | .STATE_FAILED => 10

/-- The oneof `value` field of the wire message `glm.CustomMetadata`:
`string_value`, `string_list_value` (a `glm.StringList`), `numeric_value`,
or not set. -/
inductive GlmMetaValue where
  | unset
  | stringValue (s : String)
  | stringListValue (values : List String)
  | numericValue (n : Int)
deriving DecidableEq, Repr

/-- The wire message `glm.CustomMetadata`: a key plus a oneof value. -/
structure GlmCM where
  key : String
  value : GlmMetaValue
deriving DecidableEq, Repr

/-- A naive datetime value (the payload of `datetime.datetime` objects as far
as this module observes them). -/
structure Dt where
  year : Nat
  month : Nat
  day : Nat
  hour : Nat
  minute : Nat
  second : Nat
  microsecond : Nat
deriving DecidableEq, Repr

/-- The wire message `glm.Chunk`, restricted to the fields this module reads
or writes when constructing one (`name`, `data.string_value`,
`custom_metadata`). -/
structure GlmChunkR where
  name : String
  dataStringValue : String
  customMetadata : List GlmCM
deriving DecidableEq, Repr

/-- The universe of dynamically typed Python values flowing through the
module: `None`, `str`, `int`/`float` scalars, tuples, lists, string-keyed
dicts, the `ChunkData` and `CustomMetadata` dataclass instances, the wire
objects `glm.CustomMetadata`, `glm.StringList` and `glm.Chunk`, `datetime`
objects, and the two proto enums. -/
inductive PyObj where
  | pyNone
  | pyStr (s : String)
  | pyInt (n : Int)
  | pyTuple (xs : List PyObj)
  | pyList (xs : List PyObj)
  | pyDict (entries : List (String × PyObj))
  | chunkDataObj (string_value : PyObj)
  | customMetadataObj (key : PyObj) (value : PyObj)
  | glmCustomMetadataObj (m : GlmCM)
  | glmStringListObj (values : List String)
  | glmChunkObj (c : GlmChunkR)
  | datetimeObj (d : Dt)
  | operatorObj (o : Operator)
  | stateObj (s : ChunkState)

/-- Python truthiness of a `PyObj` (`bool(x)`): `None` is false, strings,
tuples, lists and dicts are true iff nonempty, ints iff nonzero; the
remaining object kinds define no `__bool__`/`__len__` and are truthy. -/
def pyTruthy : PyObj → Bool
  | .pyNone => false
  | .pyStr s => decide (s ≠ "")
  | .pyInt n => decide (n ≠ 0)
  | .pyTuple xs => !xs.isEmpty
  | .pyList xs => !xs.isEmpty
  | .pyDict es => !es.isEmpty
  | _ => true

/-- Python `a or b`: `a` if truthy, else `b`. -/
def pyOr (a b : PyObj) : PyObj :=
  if pyTruthy a then a else b

mutual

/-- Python `repr` of the value shapes that can reach an error message in this
module (tuples of strings and the like).  Dataclass and proto shapes are
rendered schematically. -/
def pyRepr : PyObj → String
  | .pyNone => "None"
  | .pyStr s => "\x27" ++ s ++ "\x27"
  | .pyInt n => toString n
  | .pyTuple xs =>
      match pyReprList xs with
      | [one] => "(" ++ one ++ ",)"
      | parts => "(" ++ String.intercalate ", " parts ++ ")"
  | .pyList xs => "[" ++ String.intercalate ", " (pyReprList xs) ++ "]"
  | .pyDict es => "\x7b" ++ String.intercalate ", " (pyReprDict es) ++ "\x7d"
  | .chunkDataObj v => "ChunkData(string_value=" ++ pyRepr v ++ ")"
  | .customMetadataObj k v =>
      "CustomMetadata(key=" ++ pyRepr k ++ ", value=" ++ pyRepr v ++ ")"
  | .glmCustomMetadataObj m => "glm.CustomMetadata(key=\x27" ++ m.key ++ "\x27)"
  | .glmStringListObj vs => "glm.StringList(" ++ String.intercalate ", " vs ++ ")"
  | .glmChunkObj c => "glm.Chunk(name=\x27" ++ c.name ++ "\x27)"
  | .datetimeObj _ => "datetime.datetime(...)"
  | .operatorObj o => toString o.code
  | .stateObj s => toString s.code

/-- `repr` of each element of a list of Python values. -/
def pyReprList : List PyObj → List String
  | [] => []
  | x :: xs => pyRepr x :: pyReprList xs

/-- `repr` of each entry of a string-keyed dict. -/
def pyReprDict : List (String × PyObj) → List String
  | [] => []
  | (k, v) :: es => ("\x27" ++ k ++ "\x27: " ++ pyRepr v) :: pyReprDict es

end

/-- Python iteration `for x in obj`: lists and tuples yield their elements,
strings their characters, dicts their keys; the other shapes used here define
no `__iter__` and raise `TypeError`. -/
def pyIter : PyObj → Except PyErr (List PyObj)
  | .pyList xs => .ok xs
  | .pyTuple xs => .ok xs
  | .pyStr s => .ok (s.data.map (fun c => .pyStr (String.mk [c])))
  | .pyDict es => .ok (es.map (fun kv => .pyStr kv.1))
  | o => .error (.typeError ("\x27" ++ pyRepr o ++ "\x27 object is not iterable"))

/-- Python `dict` assignment `d[k] = v`: if the key is present its value is
replaced in place (the key keeps its original position), otherwise the pair
is appended.  This is the semantics both of dict literals with duplicate keys
and of insertion into an existing dict. -/
def dictInsert {κ α : Type} [DecidableEq κ] : List (κ × α) → κ → α → List (κ × α)
  | [], k, v => [(k, v)]
  | (k', v') :: rest, k, v =>
      if k' = k then (k', v) :: rest else (k', v') :: dictInsert rest k v

/-- Python `d.get(k, default)` on a string-keyed dict. -/
def dictGetD (es : List (String × PyObj)) (k : String) (d : PyObj) : PyObj :=
  match es.find? (fun kv => kv.1 = k) with
  | some kv => kv.2
  | none => d

/-- Python `d[k]` on a string-keyed dict: `KeyError` when absent. -/
def dictGet (es : List (String × PyObj)) (k : String) : Except PyErr PyObj :=
  match es.find? (fun kv => kv.1 = k) with
  | some kv => .ok kv.2
  | none => .error (.keyError (.sk k))

/-- `[a-z0-9]`: a lowercase ASCII letter or digit. -/
def lowerAlnum (c : Char) : Bool :=
  (('a' ≤ c) && (c ≤ 'z')) || (('0' ≤ c) && (c ≤ '9'))

/-- `[a-z0-9-]`: the character class of the inner group of `_VALID_NAME`. -/
def nameClass (c : Char) : Bool :=
  lowerAlnum c || (c = '-')

/-- The body of the regex `_VALID_NAME = r"[a-z0-9]([a-z0-9-]{0,38}[a-z0-9])$"`
matched against an entire character list: one leading `[a-z0-9]`, then 0–38
characters of `[a-z0-9-]`, then one final `[a-z0-9]` (total length 2–40,
alphanumeric endpoints, class-restricted interior). -/
def matchesBody (cs : List Char) : Bool :=
  decide (2 ≤ cs.length) && decide (cs.length ≤ 40) &&
    lowerAlnum (cs.headD '-') && lowerAlnum (cs.getLastD '-') &&
    ((cs.drop 1).dropLast.all nameClass)

/-- `re.match(_VALID_NAME, name)` viewed as a Boolean: `re.match` anchors at
the start, and the final `$` matches either at the end of the string or just
before a single trailing newline, so the pattern succeeds iff the body
matches the whole string or the whole string minus a trailing `'\n'`. -/
def reMatchValidName (s : String) : Bool :=
  matchesBody s.data ||
    (decide (s.data.getLastD ' ' = '\n') && matchesBody s.data.dropLast)

/-- `valid_name` (retriever_types.py lines 43–44):
`re.match(_VALID_NAME, name) and len(name) < 40`. -/
def valid_name (name : String) : Bool :=
  reMatchValidName name && decide (name.length < 40)

/-- The `NAME_ERROR_MSG` format string applied to a name, as used by
`Document.create_chunk` when `valid_name` fails. -/
def NAME_ERROR_MSG (name : String) : String :=
  "The `name` must consist of alphanumeric characters (or -) and be 40 or fewer characters; or be empty. The name you entered:\n    len(name)== " ++
    toString name.length ++ "\n    name=" ++ name ++ "\n"

/-- The key/value pairs of the `_OPERATOR` dict literal (lines 74–112), in
source order.  Proto enum keys are `IntEnum`s and are written here as their
numeric codes, because they hash and compare equal to those ints in a Python
dict.  Note the literal repeats the key `6` (once in the INCLUDES block,
once in the EXCLUDES block) and contains no `">="` key. -/
def operatorEntries : List (PyKey × Operator) :=
  [ (.ik 0, .OPERATOR_UNSPECIFIED),
    (.ik 0, .OPERATOR_UNSPECIFIED),
    (.sk "operator_unspecified", .OPERATOR_UNSPECIFIED),
    (.sk "unspecified", .OPERATOR_UNSPECIFIED),
    (.ik 1, .LESS),
    (.ik 1, .LESS),
    (.sk "operator_less", .LESS),
    (.sk "less", .LESS),
    (.sk "<", .LESS),
    (.ik 2, .LESS_EQUAL),
    (.ik 2, .LESS_EQUAL),
    (.sk "operator_less_equal", .LESS_EQUAL),
    (.sk "less_equal", .LESS_EQUAL),
    (.sk "<=", .LESS_EQUAL),
    (.ik 3, .EQUAL),
    (.ik 3, .EQUAL),
    (.sk "operator_equal", .EQUAL),
    (.sk "equal", .EQUAL),
    (.sk "==", .EQUAL),
    (.ik 4, .GREATER_EQUAL),
    (.ik 4, .GREATER_EQUAL),
    (.sk "operator_greater_equal", .GREATER_EQUAL),
    (.sk "greater_equal", .GREATER_EQUAL),
    (.ik 5, .NOT_EQUAL),
    (.ik 5, .NOT_EQUAL),
    (.sk "operator_not_equal", .NOT_EQUAL),
    (.sk "not_equal", .NOT_EQUAL),
    (.sk "!=", .NOT_EQUAL),
    (.ik 6, .INCLUDES),
    (.ik 6, .INCLUDES),
    (.sk "operator_includes", .INCLUDES),
    (.sk "includes", .INCLUDES),
    (.ik 7, .EXCLUDES),
    (.ik 6, .EXCLUDES),
    (.sk "operator_excludes", .EXCLUDES),
    (.sk "excludes", .EXCLUDES),
    (.sk "not in", .EXCLUDES) ]

/-- The `_OPERATOR` dict: the dict literal built by inserting
`operatorEntries` in order with Python dict-assignment semantics
(duplicate keys keep their first position and take the last value). -/
def _OPERATOR : List (PyKey × Operator) :=
  operatorEntries.foldl (fun d kv => dictInsert d kv.1 kv.2) []

/-- The key/value pairs of the `_STATE` dict literal (lines 114–131), in
source order, with `IntEnum` keys written as their numeric codes. -/
def stateEntries : List (PyKey × ChunkState) :=
  [ (.ik 0, .STATE_UNSPECIFIED),
    (.ik 0, .STATE_UNSPECIFIED),
    (.sk "state_unspecifed", .STATE_UNSPECIFIED),
    (.sk "unspecified", .STATE_UNSPECIFIED),
    (.ik 1, .STATE_PENDING_PROCESSING),
    (.ik 1, .STATE_PENDING_PROCESSING),
    (.sk "pending_processing", .STATE_PENDING_PROCESSING),
    (.sk "pending", .STATE_PENDING_PROCESSING),
    (.ik 2, .STATE_ACTIVE),
    (.ik 2, .STATE_ACTIVE),
    (.sk "state_active", .STATE_ACTIVE),
    (.sk "active", .STATE_ACTIVE),
    (.ik 10, .STATE_FAILED),
    (.ik 10, .STATE_FAILED),
    (.sk "state_failed", .STATE_FAILED),
    (.sk "failed", .STATE_FAILED) ]

/-- The `_STATE` dict, built like `_OPERATOR`. -/
def _STATE : List (PyKey × ChunkState) :=
  stateEntries.foldl (fun d kv => dictInsert d kv.1 kv.2) []

/-- Model of Python `str.lower()` (ASCII range, which covers every key in
the lookup tables), written structurally so proofs can evaluate it. -/
def pyLower (s : String) : String :=
  String.mk (s.data.map Char.toLower)

/-- `to_operator` (lines 134–137): lowercase string inputs, then look the key
up in `_OPERATOR`; a missing key raises `KeyError`. -/
def to_operator (x : PyKey) : Except PyErr Operator :=
  let x := match x with
    | .sk s => .sk (pyLower s)
    | k => k
  match _OPERATOR.find? (fun kv => kv.1 = x) with
  | some kv => .ok kv.2
  | none => .error (.keyError x)

/-- `to_state` (lines 140–143): lowercase string inputs, then look the key up
in `_STATE`; a missing key raises `KeyError`. -/
def to_state (x : PyKey) : Except PyErr ChunkState :=
  let x := match x with
    | .sk s => .sk (pyLower s)
    | k => k
  match _STATE.find? (fun kv => kv.1 = x) with
  | some kv => .ok kv.2
  | none => .error (.keyError x)

/-- Python `type(x).__name__` for the modelled value shapes. -/
def pyTypeName : PyObj → String
  | .pyNone => "NoneType"
  | .pyStr _ => "str"
  | .pyInt _ => "int"
  | .pyTuple _ => "tuple"
  | .pyList _ => "list"
  | .pyDict _ => "dict"
  | .chunkDataObj _ => "ChunkData"
  | .customMetadataObj _ _ => "CustomMetadata"
  | .glmCustomMetadataObj _ => "CustomMetadata"
  | .glmStringListObj _ => "StringList"
  | .glmChunkObj _ => "Chunk"
  | .datetimeObj _ => "datetime"
  | .operatorObj _ => "Operator"
  | .stateObj _ => "State"

/-- Coercion of the elements of an iterable into the repeated string field of
`glm.StringList(values=...)`: every element must be a `str`, otherwise the
proto layer raises `TypeError`. -/
def stringListValues (xs : List PyObj) : Except PyErr (List String) :=
  xs.mapM fun x =>
    match x with
    | .pyStr s => .ok s
    | o => .error (.typeError ("expected str, got " ++ pyTypeName o))

/-- `CustomMetadata._to_proto` (lines 185–201).  Branch order follows the
source: `str` first; then generic `Iterable` (a `Mapping` is passed through
as an already-converted string-list, any other iterable is wrapped in
`glm.StringList`); then `int`/`float` (proto enums are `IntEnum`s and take
this branch); anything else raises the invalid-value `ValueError`.  Finally
`glm.CustomMetadata(key=self.key, ...)` requires a `str` key. -/
def CustomMetadata._to_proto (key value : PyObj) : Except PyErr GlmCM := do
  let v : GlmMetaValue ←
    match value with
    | .pyStr s => pure (.stringValue s)
    | .pyDict es =>
        -- Mapping passthrough: the proto layer converts the dict to a
        -- StringList by reading its "values" entry (absent means empty).
        match dictGetD es "values" (.pyList []) with
        | .pyList vs => do
            let ss ← stringListValues vs
            pure (.stringListValue ss)
        | o => throw (.typeError ("expected list of str, got " ++ pyTypeName o))
    | .pyList xs => do
        let ss ← stringListValues xs
        pure (.stringListValue ss)
    | .pyTuple xs => do
        let ss ← stringListValues xs
        pure (.stringListValue ss)
    | .pyInt n => pure (.numericValue n)
    | .operatorObj o => pure (.numericValue o.code)
    | .stateObj s => pure (.numericValue s.code)
    | o =>
        throw (.valueError
          ("Invalid value type: The value for a custom_metadata specification must be either a list of string values, a string, or an integer/float. Received: \x27" ++
            pyRepr o ++ "\x27 of type " ++ pyTypeName o ++ "."))
  match key with
  | .pyStr k => pure { key := k, value := v }
  | o => throw (.typeError ("field key: expected str, got " ++ pyTypeName o))

/-- `type(proto).to_dict(proto)` for a `glm.CustomMetadata`: the `key` field
is always present, the oneof member only when set; a string list appears as
the nested dict of the `glm.StringList` message. -/
def glmCM_to_dict (m : GlmCM) : List (String × PyObj) :=
  ("key", .pyStr m.key) ::
    match m.value with
    | .unset => []
    | .stringValue s => [("string_value", .pyStr s)]
    | .stringListValue vs =>
        [("string_list_value", .pyDict [("values", .pyList (vs.map .pyStr))])]
    | .numericValue n => [("numeric_value", .pyInt n)]

/-- `CustomMetadata._from_dict` (lines 203–212): reads the mandatory `key`
entry (`KeyError` when absent) and picks the value with the Python chain
`cm.get("value") or cm.get("string_value") or cm.get("string_list_value") or
cm.get("numeric_value")` — the first *truthy* candidate wins. -/
def CustomMetadata._from_dict (cm : List (String × PyObj)) : Except PyErr PyObj := do
  let key ← dictGet cm "key"
  let value :=
    pyOr (dictGetD cm "value" .pyNone)
      (pyOr (dictGetD cm "string_value" .pyNone)
        (pyOr (dictGetD cm "string_list_value" .pyNone)
          (dictGetD cm "numeric_value" .pyNone)))
  pure (.customMetadataObj key value)

/-- `make_custom_metadata` (lines 222–234): an already-canonical
`CustomMetadata` is returned unchanged; a wire `glm.CustomMetadata` is
converted through `to_dict` and `_from_dict`; a dict goes through
`_from_dict`; anything else raises `ValueError`. -/
def make_custom_metadata (cm : PyObj) : Except PyErr PyObj :=
  match cm with
  | .customMetadataObj k v => .ok (.customMetadataObj k v)
  | .glmCustomMetadataObj m => CustomMetadata._from_dict (glmCM_to_dict m)
  | .pyDict entries => CustomMetadata._from_dict entries
  | o =>
      .error (.valueError
        ("Invalid input: Could not create a \x27CustomMetadata\x27 from the provided input. Received type: \x27" ++
          pyTypeName o ++ "\x27, value: \x27" ++ pyRepr o ++ "\x27."))

/-- Dynamic dispatch of `cm._to_proto()`: only a `CustomMetadata` dataclass
instance has the method; every other object raises `AttributeError`. -/
def obj_to_proto : PyObj → Except PyErr GlmCM
  | .customMetadataObj k v => CustomMetadata._to_proto k v
  | _ => .error (.attributeError "_to_proto")

/-- Dynamic dispatch of `cm._to_dict()` (lines 214–216: `_to_proto` followed
by the proto `to_dict`): only a `CustomMetadata` dataclass instance has the
method. -/
def obj_to_dict : PyObj → Except PyErr PyObj
  | .customMetadataObj k v =>
      (CustomMetadata._to_proto k v).map (fun m => .pyDict (glmCM_to_dict m))
  | _ => .error (.attributeError "_to_dict")

/-- Modelled from the spec: the depth-first leaf sequence of an update
mapping, the traversal underlying `flatten_update_paths`
(`google.generativeai.utils`, not under `src/`; spec §4.1).  Values that are
mappings are recursed into with child keys prefixed by `"{parent_key}."`;
every non-mapping value is a leaf; order is first-encounter depth-first. -/
def flatSeq : List (String × PyObj) → List (String × PyObj)
  | [] => []
  | (k, .pyDict entries) :: rest =>
      ((flatSeq entries).map (fun kv => (k ++ "." ++ kv.1, kv.2))) ++ flatSeq rest
  | (k, v) :: rest => (k, v) :: flatSeq rest
termination_by l => sizeOf l
decreasing_by all_goals (simp_wf <;> omega)

/-- Modelled from the spec: `flatten_update_paths`
(`google.generativeai.utils`, not under `src/`; spec §4.1).  The flat dotted
paths and leaf values of a nested update mapping, accumulated into a Python
dict in depth-first order (so a duplicated flattened key keeps its first
position and takes its last value). -/
def flatten_update_paths (updates : List (String × PyObj)) : List (String × PyObj) :=
  (flatSeq updates).foldl (fun d kv => dictInsert d kv.1 kv.2) []

/-- `getattr` on the modelled value shapes, as used by the non-terminal path
segments of `_apply_update`.  `ChunkData` and `CustomMetadata` dataclass
instances expose their declared fields; a wire `glm.CustomMetadata` exposes
its proto fields (an unset oneof member reads as its default); the built-in
types expose no attribute that this layer could name. -/
def PyObj.getattr (o : PyObj) (a : String) : Except PyErr PyObj :=
  match o with
  | .chunkDataObj sv => if a = "string_value" then .ok sv else .error (.attributeError a)
  | .customMetadataObj k v =>
      if a = "key" then .ok k
      else if a = "value" then .ok v
      else .error (.attributeError a)
  | .glmCustomMetadataObj m =>
      if a = "key" then .ok (.pyStr m.key)
      else if a = "string_value" then
        .ok (.pyStr (match m.value with | .stringValue s => s | _ => ""))
      else if a = "numeric_value" then
        .ok (.pyInt (match m.value with | .numericValue n => n | _ => 0))
      else if a = "string_list_value" then
        .ok (.glmStringListObj (match m.value with | .stringListValue vs => vs | _ => []))
      else .error (.attributeError a)
  | _ => .error (.attributeError a)

/-- `setattr` on the modelled value shapes, as used by the terminal path
segment of `_apply_update`.  Dataclass instances accept their declared
fields; built-in types (`str`, `int`, `list`, `dict`, `None`, ...) reject
attribute assignment with `AttributeError`.  (CPython would additionally let
a dataclass instance grow a brand-new attribute; no modelled code path
assigns one, so that case is reported as `AttributeError` here.) -/
def PyObj.setattr (o : PyObj) (a : String) (v : PyObj) : Except PyErr PyObj :=
  match o with
  | .chunkDataObj sv =>
      if a = "string_value" then .ok (.chunkDataObj v)
      else .error (.attributeError (a ++ toString (pyRepr sv).length))
  | .customMetadataObj k v' =>
      if a = "key" then .ok (.customMetadataObj v v')
      else if a = "value" then .ok (.customMetadataObj k v)
      else .error (.attributeError a)
  | _ => .error (.attributeError a)

/-- The inner loop of `_apply_update` below the entity itself: resolve each
non-terminal segment with `getattr`, assign the final segment with
`setattr`.  Python mutates the retrieved sub-object in place; here the
updated sub-object is written back, which is observationally identical for
the tree-shaped values involved. -/
def PyObj.setPath : PyObj → List String → PyObj → Except PyErr PyObj
  | o, [], _ => .ok o
  | o, [last], v => PyObj.setattr o last v
  | o, seg :: rest, v => do
      let inner ← PyObj.getattr o seg
      let inner' ← PyObj.setPath inner rest v
      .ok o >>= fun o => PyObj.setattr o seg inner'

/-- The `Corpus` dataclass (lines 243–253): `name`, `display_name`,
`create_time`, `update_time`, all dynamically typed, plus the dynamic
attributes a bare `setattr` may add to a (non-slots) dataclass instance. -/
structure Corpus where
  name : PyObj
  display_name : PyObj
  create_time : PyObj
  update_time : PyObj
  extra : List (String × PyObj)

/-- Python `path.split(".")`: split on every literal dot (structural model,
so that proofs can evaluate it). -/
def splitDotsAux : List Char → List Char → List String
  | [], acc => [String.mk acc.reverse]
  | c :: rest, acc =>
      if c = '.' then String.mk acc.reverse :: splitDotsAux rest []
      else splitDotsAux rest (c :: acc)

/-- `path.split(".")` on a string. -/
def pySplitDot (path : String) : List String :=
  splitDotsAux path.data []

/-- `getattr` on a `Corpus` instance. -/
def Corpus.getattrE (c : Corpus) (a : String) : Except PyErr PyObj :=
  if a = "name" then .ok c.name
  else if a = "display_name" then .ok c.display_name
  else if a = "create_time" then .ok c.create_time
  else if a = "update_time" then .ok c.update_time
  else match c.extra.find? (fun kv => kv.1 = a) with
    | some kv => .ok kv.2
    | none => .error (.attributeError a)

/-- `setattr` on a `Corpus` instance: a declared field is overwritten, any
other name becomes a dynamic attribute (dataclasses are not slotted). -/
def Corpus.setattrE (c : Corpus) (a : String) (v : PyObj) : Corpus :=
  if a = "name" then { c with name := v }
  else if a = "display_name" then { c with display_name := v }
  else if a = "create_time" then { c with create_time := v }
  else if a = "update_time" then { c with update_time := v }
  else { c with extra := dictInsert c.extra a v }

/-- `Corpus._apply_update` (lines 395–399): split the dotted path, resolve
every non-terminal segment with `getattr`, assign the final segment with
`setattr`. -/
def Corpus._apply_update (c : Corpus) (path : String) (value : PyObj) : Except PyErr Corpus :=
  match pySplitDot path with
  | [last] => .ok (c.setattrE last value)
  | seg :: rest => do
      let inner ← c.getattrE seg
      let inner' ← PyObj.setPath inner rest value
      .ok (c.setattrE seg inner')
  | [] => .ok c

/-- `Corpus.to_dict` (lines 725–727). -/
def Corpus.to_dict (c : Corpus) : PyObj :=
  .pyDict [("name", c.name), ("display_name", c.display_name)]

/-- The `Document` dataclass (lines 737–748). -/
structure Document where
  name : PyObj
  display_name : PyObj
  custom_metadata : PyObj
  create_time : PyObj
  update_time : PyObj
  extra : List (String × PyObj)

/-- `getattr` on a `Document` instance. -/
def Document.getattrE (d : Document) (a : String) : Except PyErr PyObj :=
  if a = "name" then .ok d.name
  else if a = "display_name" then .ok d.display_name
  else if a = "custom_metadata" then .ok d.custom_metadata
  else if a = "create_time" then .ok d.create_time
  else if a = "update_time" then .ok d.update_time
  else match d.extra.find? (fun kv => kv.1 = a) with
    | some kv => .ok kv.2
    | none => .error (.attributeError a)

/-- `setattr` on a `Document` instance. -/
def Document.setattrE (d : Document) (a : String) (v : PyObj) : Document :=
  if a = "name" then { d with name := v }
  else if a = "display_name" then { d with display_name := v }
  else if a = "custom_metadata" then { d with custom_metadata := v }
  else if a = "create_time" then { d with create_time := v }
  else if a = "update_time" then { d with update_time := v }
  else { d with extra := dictInsert d.extra a v }

/-- `Document._apply_update` (lines 1143–1147), same shape as the `Corpus`
version. -/
def Document._apply_update (d : Document) (path : String) (value : PyObj) : Except PyErr Document :=
  match pySplitDot path with
  | [last] => .ok (d.setattrE last value)
  | seg :: rest => do
      let inner ← d.getattrE seg
      let inner' ← PyObj.setPath inner rest value
      .ok (d.setattrE seg inner')
  | [] => .ok d

/-- `Document.to_dict` (lines 1505–1511). -/
def Document.to_dict (d : Document) : PyObj :=
  .pyDict [("name", d.name), ("display_name", d.display_name),
           ("custom_metadata", d.custom_metadata)]

/-- The `Chunk` dataclass (lines 1528–1576).  `data` is an `Option` because
`__init__` assigns `self.data` only in its `str` and `dict` branches: `none`
models the attribute never having been set, and reading it then raises
`AttributeError`. -/
structure Chunk where
  name : PyObj
  data : Option PyObj
  custom_metadata : PyObj
  state : PyObj
  create_time : PyObj
  update_time : PyObj
  extra : List (String × PyObj)

/-- `getattr` on a `Chunk` instance; reading `data` when `__init__` never
assigned it raises `AttributeError`. -/
def Chunk.getattrE (c : Chunk) (a : String) : Except PyErr PyObj :=
  if a = "name" then .ok c.name
  else if a = "data" then
    match c.data with
    | some v => .ok v
    | none => .error (.attributeError "data")
  else if a = "custom_metadata" then .ok c.custom_metadata
  else if a = "state" then .ok c.state
  else if a = "create_time" then .ok c.create_time
  else if a = "update_time" then .ok c.update_time
  else match c.extra.find? (fun kv => kv.1 = a) with
    | some kv => .ok kv.2
    | none => .error (.attributeError a)

/-- `setattr` on a `Chunk` instance. -/
def Chunk.setattrE (c : Chunk) (a : String) (v : PyObj) : Chunk :=
  if a = "name" then { c with name := v }
  else if a = "data" then { c with data := some v }
  else if a = "custom_metadata" then { c with custom_metadata := v }
  else if a = "state" then { c with state := v }
  else if a = "create_time" then { c with create_time := v }
  else if a = "update_time" then { c with update_time := v }
  else { c with extra := dictInsert c.extra a v }

/-- `Chunk._apply_update` (lines 1578–1582), same shape as the `Corpus`
version. -/
def Chunk._apply_update (c : Chunk) (path : String) (value : PyObj) : Except PyErr Chunk :=
  match pySplitDot path with
  | [last] => .ok (c.setattrE last value)
  | seg :: rest => do
      let inner ← c.getattrE seg
      let inner' ← PyObj.setPath inner rest value
      .ok (c.setattrE seg inner')
  | [] => .ok c

/-- `dataclasses.asdict(self.data)` as used by `Chunk.to_dict`: defined for a
`ChunkData` dataclass instance, `TypeError` for anything else. -/
def dataclassAsdict : PyObj → Except PyErr PyObj
  | .chunkDataObj sv => .ok (.pyDict [("string_value", sv)])
  | _ => .error (.typeError "asdict() should be called on dataclass instances")

/-- `Chunk.to_dict` (lines 1673–1679): reads `self.data` (raising
`AttributeError` when `__init__` never set it), converts it with
`dataclasses.asdict`, and maps `cm._to_dict()` over `self.custom_metadata`. -/
def Chunk.to_dict (c : Chunk) : Except PyErr PyObj :=
  match c.data with
  | none => .error (.attributeError "data")
  | some d =>
    match dataclassAsdict d with
    | .error e => .error e
    | .ok dDict =>
      match pyIter c.custom_metadata with
      | .error e => .error e
      | .ok items =>
        match items.mapM obj_to_dict with
        | .error e => .error e
        | .ok cms =>
            .ok (.pyDict [("name", c.name), ("data", dDict),
                          ("custom_metadata", .pyList cms), ("state", c.state)])

/-- The wire request `glm.UpdateCorpusRequest`: the mutated entity snapshot
plus the field-mask path list.  Its construction is the point at which the
remote `update_corpus` call is issued. -/
structure UpdateCorpusRequest where
  corpus : PyObj
  update_mask : List String

/-- The wire request `glm.UpdateDocumentRequest`. -/
structure UpdateDocumentRequest where
  document : PyObj
  update_mask : List String

/-- The wire request `glm.UpdateChunkRequest`. -/
structure UpdateChunkRequest where
  chunk : PyObj
  update_mask : List String

/-- The `for path, value in updates.items(): self._apply_update(path, value)`
loop: apply each pair in iteration order; on the first raised error, stop and
keep the state mutated so far (local application is not atomic). -/
def applyAll {σ : Type} (apply : σ → String → PyObj → Except PyErr σ)
    (s : σ) : List (String × PyObj) → σ × Option PyErr
  | [] => (s, none)
  | (k, v) :: rest =>
      match apply s k v with
      | .ok s' => applyAll apply s' rest
      | .error e => (s, some e)

/-- The unsupported-field `ValueError` message of `Corpus.update` (line 428). -/
def corpusUpdateErrMsg : String :=
  "Invalid operation: Currently, only the \x27display_name\x27 attribute can be updated for a \x27Corpus\x27."

/-- The unsupported-field `ValueError` message of `Document.update` (line 1176). -/
def documentUpdateErrMsg : String :=
  "Invalid operation: Currently, only the \x27display_name\x27 attribute can be updated for a \x27Document\x27."

/-- The unsupported-field `ValueError` message of `Chunk.update` (line 1620),
which names the offending path. -/
def chunkUpdateErrMsg (item : String) : String :=
  "Invalid operation: Currently, only the \x27data\x27 attribute can be updated for a \x27Chunk\x27. Attempted to update \x27" ++
    item ++ "\x27."

/-- `Corpus.update` (lines 401–439; `update_async`, lines 441–470, is
line-identical apart from `await`): flatten the update spec, reject any
flattened path other than `"display_name"` before anything else happens,
then build the field mask (one entry per flattened key, in iteration order),
apply each pair to `self` in place, and only then construct and send
`glm.UpdateCorpusRequest`.  The returned `Corpus` is the final state of
`self` — the same, in-place-mutated instance is returned on success. -/
def Corpus.update (self : Corpus) (updates : List (String × PyObj)) :
    Corpus × Except PyErr UpdateCorpusRequest :=
  let updates := flatten_update_paths updates
  match updates.find? (fun kv => decide (kv.1 ≠ "display_name")) with
  | some _ => (self, .error (.valueError corpusUpdateErrMsg))
  | none =>
    let field_mask := updates.map (fun kv => kv.1)
    match applyAll Corpus._apply_update self updates with
    | (self, some e) => (self, .error e)
    | (self, none) =>
        (self, .ok { corpus := self.to_dict, update_mask := field_mask })

/-- `Document.update` (lines 1149–1186; `update_async`, lines 1188–1216, is
line-identical apart from `await`), same pipeline as `Corpus.update`. -/
def Document.update (self : Document) (updates : List (String × PyObj)) :
    Document × Except PyErr UpdateDocumentRequest :=
  let updates := flatten_update_paths updates
  match updates.find? (fun kv => decide (kv.1 ≠ "display_name")) with
  | some _ => (self, .error (.valueError documentUpdateErrMsg))
  | none =>
    let field_mask := updates.map (fun kv => kv.1)
    match applyAll Document._apply_update self updates with
    | (self, some e) => (self, .error e)
    | (self, none) =>
        (self, .ok { document := self.to_dict, update_mask := field_mask })

/-- The `c_data` collection step at the top of `Chunk.update` (lines
1606–1610): when `self.custom_metadata` is truthy, iterate it and call
`cm._to_proto()` on each entry; when falsy, produce the empty list. -/
def Chunk.collect_cdata (self : Chunk) : Except PyErr (List GlmCM) :=
  if pyTruthy self.custom_metadata then do
    let items ← pyIter self.custom_metadata
    items.mapM obj_to_proto
  else
    pure []

/-- `Chunk.update` (lines 1584–1631; `update_async`, lines 1633–1671, is
line-identical apart from `await`): first convert `self.custom_metadata` to
wire protos and assign the result back onto `self` (line 1613 — this
mutation happens before the update paths are validated), then flatten the
spec, reject any flattened path other than `"data.string_value"`, build the
mask, apply the pairs, serialize `self` with `to_dict` and construct the
request.  The returned `Chunk` is the final state of `self`, whatever the
outcome. -/
def Chunk.update (self : Chunk) (updates : List (String × PyObj)) :
    Chunk × Except PyErr UpdateChunkRequest :=
  match self.collect_cdata with
  | .error e => (self, .error e)
  | .ok c_data =>
    let self := { self with
      custom_metadata := .pyList (c_data.map .glmCustomMetadataObj) }
    let updates := flatten_update_paths updates
    match updates.find? (fun kv => decide (kv.1 ≠ "data.string_value")) with
    | some kv => (self, .error (.valueError (chunkUpdateErrMsg kv.1)))
    | none =>
      let field_mask := updates.map (fun kv => kv.1)
      match applyAll Chunk._apply_update self updates with
      | (self, some e) => (self, .error e)
      | (self, none) =>
          match self.to_dict with
          | .error e => (self, .error e)
          | .ok d => (self, .ok { chunk := d, update_mask := field_mask })

/-- The bounds `ValueError` message shared by all four query methods. -/
def queryBoundsErrMsg : String :=
  "Invalid operation: The number of results returned must be between 1 and 100."

/-- The local `results_count` validation of `Corpus.query` (lines 498–502;
`query_async`, lines 543–547, is identical): `if results_count:` — so `None`
and `0` skip the check — `if results_count > 100: raise ValueError(...)`.
An `.ok` outcome means the method proceeds to issue the remote query call. -/
def Corpus.query_results_count_check (results_count : Option Int) : Except PyErr Unit :=
  match results_count with
  | none => .ok ()
  | some n =>
      if n ≠ 0 then
        if n > 100 then .error (.valueError queryBoundsErrMsg) else .ok ()
      else .ok ()

/-- The local `results_count` validation of `Document.query` (lines
1068–1072; `query_async`, lines 1113–1117, is identical): `if
results_count:` then `if results_count < 0 or results_count >= 100: raise
ValueError(...)`. -/
def Document.query_results_count_check (results_count : Option Int) : Except PyErr Unit :=
  match results_count with
  | none => .ok ()
  | some n =>
      if n ≠ 0 then
        if n < 0 ∨ n ≥ 100 then .error (.valueError queryBoundsErrMsg) else .ok ()
      else .ok ()

/-- Greedily take up to `maxN` leading decimal digits (at least one), as a
`strptime` numeric directive does; returns the number and the rest. -/
def takeDigits (cs : List Char) (maxN : Nat) : Option (Nat × List Char) :=
  let ds := (cs.takeWhile Char.isDigit).take maxN
  if ds.isEmpty then none
  else some (ds.foldl (fun n c => n * 10 + (c.toNat - 48)) 0, cs.drop ds.length)

/-- Expect one literal character. -/
def expectChar (c : Char) : List Char → Option (List Char)
  | c' :: rest => if c' = c then some rest else none
  | [] => none

/-- Model of the external `datetime.strptime(s, "%Y-%m-%dT%H:%M:%S.%fZ")`
used by `Chunk.__init__`: numeric directives take 1–4 (`%Y`), 1–2 (the
others) or 1–6 (`%f`) digits, the literal separators must match exactly,
`%f` is zero-padded on the right to microseconds, and out-of-range
components raise `ValueError`. -/
def datetime_strptime (s : String) : Except PyErr Dt :=
  let parsed : Option Dt := do
    let (year, r) ← takeDigits s.data 4
    let r ← expectChar '-' r
    let (month, r) ← takeDigits r 2
    let r ← expectChar '-' r
    let (day, r) ← takeDigits r 2
    let r ← expectChar 'T' r
    let (hour, r) ← takeDigits r 2
    let r ← expectChar ':' r
    let (minute, r) ← takeDigits r 2
    let r ← expectChar ':' r
    let (second, r) ← takeDigits r 2
    let r ← expectChar '.' r
    let fracDigits := (r.takeWhile Char.isDigit).take 6
    let r := r.drop fracDigits.length
    if fracDigits.isEmpty then none else
    let micro := fracDigits.foldl (fun n c => n * 10 + (c.toNat - 48)) 0 *
      (10 ^ (6 - fracDigits.length))
    let r ← expectChar 'Z' r
    if r.isEmpty &&
        1 ≤ month && month ≤ 12 && 1 ≤ day && day ≤ 31 &&
        hour ≤ 23 && minute ≤ 59 && second ≤ 61 then
      some ⟨year, month, day, hour, minute, second, micro⟩
    else none
  match parsed with
  | some d => .ok d
  | none =>
      .error (.valueError
        ("time data \x27" ++ s ++ "\x27 does not match format \x27%Y-%m-%dT%H:%M:%S.%fZ\x27"))

/-- One `create_time`/`update_time` branch of `Chunk.__init__` (lines
1564–1576): `None` is kept, a `datetime` is kept, anything else is handed to
`datetime.strptime` (which needs a `str`). -/
def chunk_time_field (o : PyObj) : Except PyErr PyObj :=
  match o with
  | .pyNone => .ok .pyNone
  | .datetimeObj d => .ok (.datetimeObj d)
  | .pyStr s => (datetime_strptime s).map .datetimeObj
  | o => .error (.typeError ("strptime() argument 1 must be str, not " ++ pyTypeName o))

/-- A Python value used as a dict key by `to_state`/`to_operator`: strings
and ints are themselves; proto enums are `IntEnum`s and key as their numeric
code.  Other objects either are unhashable or simply miss the table; both
outcomes abort the lookup and are modelled as an error. -/
def pyKeyOf : PyObj → Except PyErr PyKey
  | .pyStr s => .ok (.sk s)
  | .pyInt n => .ok (.ik n)
  | .stateObj s => .ok (.ik s.code)
  | .operatorObj o => .ok (.ik o.code)
  | o => .error (.typeError ("unhashable or unknown key: " ++ pyTypeName o))

/-- The `data` branch of `Chunk.__init__` (lines 1552–1555): `self.data` is
assigned only when `data` is a `str` (wrapped into `ChunkData`) or a `dict`
(its `"string_value"` entry is read — `KeyError` when absent); for any other
`data` — including an actual `ChunkData` instance, which the declared
parameter type `ChunkData | str` permits — the `if`/`elif` chain has no
`else` and the attribute is never set (`none`). -/
def chunk_init_data (data : PyObj) : Except PyErr (Option PyObj) :=
  match data with
  | .pyStr s => .ok (some (PyObj.chunkDataObj (.pyStr s)))
  | .pyDict entries => do
      let sv ← dictGet entries "string_value"
      pure (some (PyObj.chunkDataObj sv))
  | _ => .ok none

/-- The `custom_metadata` branch of `Chunk.__init__` (lines 1557–1560):
`None` becomes the empty list, anything else is iterated and each entry
normalized with `make_custom_metadata`. -/
def chunk_init_custom_metadata (custom_metadata : PyObj) : Except PyErr PyObj :=
  match custom_metadata with
  | .pyNone => .ok (PyObj.pyList [])
  | cmArg => do
      let items ← pyIter cmArg
      let cms ← items.mapM make_custom_metadata
      pure (PyObj.pyList cms)

/-- The `self.state = to_state(state)` line of `Chunk.__init__`. -/
def chunk_init_state (state : PyObj) : Except PyErr PyObj := do
  let k ← pyKeyOf state
  let st ← to_state k
  pure (PyObj.stateObj st)

/-- `Chunk.__init__` assembled from its stages (field assignments happen in
source order; any raising stage aborts construction). -/
def Chunk.init (name data custom_metadata state create_time update_time : PyObj) :
    Except PyErr Chunk := do
  let dataField ← chunk_init_data data
  let cmField ← chunk_init_custom_metadata custom_metadata
  let stField ← chunk_init_state state
  let ct ← chunk_time_field create_time
  let ut ← chunk_time_field update_time
  pure { name := name, data := dataField, custom_metadata := cmField,
         state := stField, create_time := ct, update_time := ut, extra := [] }

/-- Construction of a `glm.CustomMetadata` from a plain dict, as the proto
layer does when such a dict is passed for a `custom_metadata` element: the
oneof member present in the dict is taken, unrecognized keys raise
`ValueError`. -/
def glmCM_from_dict (es : List (String × PyObj)) : Except PyErr GlmCM := do
  if es.all (fun kv =>
      kv.1 = "key" ∨ kv.1 = "string_value" ∨ kv.1 = "string_list_value" ∨
        kv.1 = "numeric_value") then
    let key ←
      match dictGetD es "key" .pyNone with
      | .pyStr k => pure k
      | .pyNone => pure ""
      | o => throw (.typeError ("field key: expected str, got " ++ pyTypeName o))
    let value : GlmMetaValue ←
      match dictGetD es "string_value" .pyNone with
      | .pyStr s => pure (.stringValue s)
      | _ =>
        match dictGetD es "numeric_value" .pyNone with
        | .pyInt n => pure (.numericValue n)
        | _ =>
          match dictGetD es "string_list_value" .pyNone with
          | .pyDict sl =>
              match dictGetD sl "values" (.pyList []) with
              | .pyList vs => do
                  let ss ← stringListValues vs
                  pure (.stringListValue ss)
              | o => throw (.typeError ("expected list of str, got " ++ pyTypeName o))
          | .glmStringListObj vs => pure (.stringListValue vs)
          | .pyNone => pure .unset
          | o => throw (.typeError ("field string_list_value: got " ++ pyTypeName o))
    pure { key := key, value := value }
  else
    throw (.valueError "Unknown field for CustomMetadata")

/-- Coercion of the `custom_metadata` argument of a `glm.Chunk` constructor
call: `None` means empty, a list or tuple must hold wire
`glm.CustomMetadata` objects or dicts (a dataclass instance is rejected by
the proto layer). -/
def glm_custom_metadata_list (o : PyObj) : Except PyErr (List GlmCM) :=
  match o with
  | .pyNone => .ok []
  | .pyList xs => xs.mapM fun x =>
      match x with
      | .glmCustomMetadataObj m => .ok m
      | .pyDict es => glmCM_from_dict es
      | o => .error (.typeError ("invalid custom_metadata element: " ++ pyTypeName o))
  | .pyTuple xs => xs.mapM fun x =>
      match x with
      | .glmCustomMetadataObj m => .ok m
      | .pyDict es => glmCM_from_dict es
      | o => .error (.typeError ("invalid custom_metadata element: " ++ pyTypeName o))
  | o => .error (.typeError ("invalid custom_metadata: " ++ pyTypeName o))

/-- A `glm.Chunk(name=..., data={"string_value": ...}, custom_metadata=...)`
constructor call: `name` must be a `str` (or `None`, which leaves the proto
default `""`), the `string_value` entry must be a `str` (or `None`), and the
metadata list is coerced element-wise. -/
def glmChunk_mk (name dataValue md : PyObj) : Except PyErr GlmChunkR := do
  let n ←
    match name with
    | .pyStr s => pure s
    | .pyNone => pure ""
    | o => throw (.typeError ("field name: expected str, got " ++ pyTypeName o))
  let d ←
    match dataValue with
    | .pyStr s => pure s
    | .pyNone => pure ""
    | o => throw (.typeError ("field string_value: expected str, got " ++ pyTypeName o))
  let cms ← glm_custom_metadata_list md
  pure { name := n, dataStringValue := d, customMetadata := cms }

/-- A `glm.Chunk(mapping)` constructor call, restricted to the fields this
module can produce: `name`, `data` (a dict whose `string_value` is read),
and `custom_metadata`; the remaining wire fields (`state`, timestamps) are
accepted and not observed by any modelled operation; unrecognized keys raise
`ValueError`. -/
def glmChunk_from_dict (es : List (String × PyObj)) : Except PyErr GlmChunkR := do
  if es.all (fun kv =>
      kv.1 = "name" ∨ kv.1 = "data" ∨ kv.1 = "custom_metadata" ∨
        kv.1 = "state" ∨ kv.1 = "create_time" ∨ kv.1 = "update_time") then
    let dataValue ←
      match dictGetD es "data" .pyNone with
      | .pyNone => pure PyObj.pyNone
      | .pyDict ds => pure (dictGetD ds "string_value" .pyNone)
      | o => throw (.typeError ("field data: expected dict, got " ++ pyTypeName o))
    glmChunk_mk (dictGetD es "name" .pyNone) dataValue
      (dictGetD es "custom_metadata" .pyNone)
  else
    throw (.valueError "Unknown field for Chunk")

/-- `Document._make_chunk` (lines 849–880): a wire `glm.Chunk` is copied; a
bare string becomes the textual payload of an anonymous chunk; a tuple of
length 2 or 3 is positional `(name, data[, custom_metadata])` and any other
tuple length raises the `ValueError` that reports the received length; a
mapping has a string `data` entry normalized into `{"string_value": ...}`
(reading `chunk["data"]` first — `KeyError` when absent) and is then handed
to the `glm.Chunk` constructor; any other type raises `TypeError` naming the
received type. -/
def Document._make_chunk (chunk : PyObj) : Except PyErr GlmChunkR :=
  match chunk with
  | .glmChunkObj c => .ok c
  | .pyStr s => .ok { name := "", dataStringValue := s, customMetadata := [] }
  | .pyTuple xs =>
      match xs with
      | [name, data] => glmChunk_mk name data .pyNone
      | [name, data, md] => glmChunk_mk name data md
      | _ =>
          .error (.valueError
            ("Tuples should have length 2 or 3, got length: " ++ toString xs.length ++
              "\nvalue: " ++ pyRepr (.pyTuple xs)))
  | .pyDict entries => do
      let d ← dictGet entries "data"
      let entries :=
        match d with
        | .pyStr s => dictInsert entries "data" (.pyDict [("string_value", .pyStr s)])
        | _ => entries
      glmChunk_from_dict entries
  | o =>
      .error (.typeError
        ("Invalid input: Could not convert instance of type \x27" ++ pyTypeName o ++
          "\x27 to a chunk. Received value: \x27" ++ pyRepr o ++ "\x27."))

/-! ## Theorems -/

/-- Every successful `_from_dict` yields a `CustomMetadata` dataclass
instance (shared helper). -/
theorem from_dict_ok_shape (es : List (String × PyObj)) (r : PyObj)
    (h : CustomMetadata._from_dict es = .ok r) :
    ∃ k v, r = .customMetadataObj k v := by
  unfold CustomMetadata._from_dict at h
  cases hg : dictGet es "key" with
  | ok k =>
      rw [hg] at h
      simp only [bind, Except.bind, pure, Except.pure] at h
      exact ⟨k, _, (Except.ok.injEq _ _).mp h.symm⟩
  | error e =>
      rw [hg] at h
      simp only [bind, Except.bind] at h
      cases h

/-- C2: on a `Corpus`, `update({"display_name": "new title"})` sends a field
mask containing exactly the single path `"display_name"` (one mask entry per
flattened update key, in iteration order), sets the instance's
`display_name` to `"new title"` in place (every other field is untouched),
and returns that same mutated instance together with the request carrying
the mutated snapshot. -/
theorem corpus_update_display_name_scenario (c : Corpus) :
    Corpus.update c [("display_name", .pyStr "new title")] =
      ({ c with display_name := .pyStr "new title" },
       .ok { corpus := .pyDict [("name", c.name), ("display_name", .pyStr "new title")],
             update_mask := ["display_name"] }) := by
  simp [Corpus.update, flatten_update_paths, flatSeq, dictInsert, applyAll,
        Corpus._apply_update, pySplitDot, splitDotsAux, Corpus.setattrE, Corpus.to_dict]

/-- C3: `make_custom_metadata` is idempotent — feeding its result back in
returns the same value (exceptions propagate unchanged), and on an
already-canonical `CustomMetadata` it is the identity.  This holds for every
input, in particular for the string-representable ones named by the claim. -/
theorem make_custom_metadata_idempotent :
    (∀ x : PyObj,
       (match make_custom_metadata x with
        | .ok y => make_custom_metadata y
        | .error e => .error e) = make_custom_metadata x)
  ∧ (∀ k v : PyObj,
       make_custom_metadata (.customMetadataObj k v) = .ok (.customMetadataObj k v)) := by
  constructor
  · intro x
    cases x <;> try rfl
    case pyDict es =>
      cases hm : CustomMetadata._from_dict es with
      | ok r =>
          obtain ⟨k, v, rfl⟩ := from_dict_ok_shape _ _ hm
          simp [make_custom_metadata, hm]
      | error e => simp [make_custom_metadata, hm]
  · intro k v
    rfl

/-- C5 (code bug): the query methods claim the bound `[1, 100]` in their own
`ValueError` message, but `Document.query` (and `query_async`) rejects the
in-bounds value `100` (its test is `results_count < 0 or results_count >=
100`), `Corpus.query` accepts the very same `100` (its test is
`results_count > 100`), and both accept out-of-bounds non-positive values
such as `-5` on `Corpus.query` (and `0` everywhere, which skips the check by
falsiness).  The claimed behaviour does hold at `150`: both reject it
locally, issuing no remote call. -/
theorem query_results_count_bounds_divergence :
    Document.query_results_count_check (some 100) = .error (.valueError queryBoundsErrMsg)
  ∧ Corpus.query_results_count_check (some 100) = .ok ()
  ∧ Corpus.query_results_count_check (some (-5)) = .ok ()
  ∧ Corpus.query_results_count_check (some 0) = .ok ()
  ∧ Document.query_results_count_check (some 0) = .ok ()
  ∧ Corpus.query_results_count_check (some 150) = .error (.valueError queryBoundsErrMsg)
  ∧ Document.query_results_count_check (some 150) = .error (.valueError queryBoundsErrMsg)
  ∧ Document.query_results_count_check (some 99) = .ok ()
  ∧ Corpus.query_results_count_check (some 99) = .ok () := by
  refine ⟨rfl, ?_, ?_, rfl, rfl, ?_, ?_, ?_, ?_⟩ <;>
    simp [Corpus.query_results_count_check, Document.query_results_count_check,
          queryBoundsErrMsg]

/-- C6 (counterexample): the claim says `to_operator` maps `">="` to
`GREATER_EQUAL`, but the `_OPERATOR` table has no `">="` key at all (lines
94–97 list only `Operator.GREATER_EQUAL`, `4`, `"operator_greater_equal"`
and `"greater_equal"`), so the lookup raises `KeyError` instead. -/
theorem to_operator_ge_symbol_counterexample :
    to_operator (.sk ">=") = .error (.keyError (.sk ">=")) ∧
    to_operator (.sk ">=") ≠ .ok .GREATER_EQUAL := by
  constructor
  · rfl
  · intro h
    cases h.symm.trans (rfl : to_operator (.sk ">=") = .error (.keyError (.sk ">=")))

/-- C6 (amended): `to_operator` maps the symbols `"<"`, `"<="`, `"=="`,
`"!="` to LESS, LESS_EQUAL, EQUAL, NOT_EQUAL and the names `"unspecified"`,
`"includes"`, `"excludes"` (case-insensitively: inputs are lowercased before
lookup) to OPERATOR_UNSPECIFIED, INCLUDES, EXCLUDES — but the symbol `">="`
is absent from the table and raises `KeyError`; `GREATER_EQUAL` is reachable
by name (`"greater_equal"`) only. -/
theorem to_operator_symbol_and_name_map :
    to_operator (.sk "<") = .ok .LESS
  ∧ to_operator (.sk "<=") = .ok .LESS_EQUAL
  ∧ to_operator (.sk "==") = .ok .EQUAL
  ∧ to_operator (.sk "!=") = .ok .NOT_EQUAL
  ∧ to_operator (.sk ">=") = .error (.keyError (.sk ">="))
  ∧ to_operator (.sk "greater_equal") = .ok .GREATER_EQUAL
  ∧ to_operator (.sk "unspecified") = .ok .OPERATOR_UNSPECIFIED
  ∧ to_operator (.sk "includes") = .ok .INCLUDES
  ∧ to_operator (.sk "excludes") = .ok .EXCLUDES
  ∧ to_operator (.sk "UNSPECIFIED") = .ok .OPERATOR_UNSPECIFIED
  ∧ to_operator (.sk "Includes") = .ok .INCLUDES
  ∧ to_operator (.sk "EXCLUDES") = .ok .EXCLUDES
  ∧ to_operator (.sk "GREATER_EQUAL") = .ok .GREATER_EQUAL := by
  exact ⟨rfl, rfl, rfl, rfl, rfl, rfl, rfl, rfl, rfl, rfl, rfl, rfl, rfl⟩

/-- C8: `Document._make_chunk` maps a 2-tuple `(name, data)` to a wire chunk
with that name and textual payload, a 3-tuple `(name, data,
custom_metadata)` likewise with the metadata attached (after the proto
layer's element-wise coercion), and any tuple of another length fails with
the `ValueError` reporting the received length; in particular
`("doc/chunks/a", "hello")` produces the chunk with name `"doc/chunks/a"`
and `string_value` `"hello"`. -/
theorem make_chunk_tuple_shapes :
    Document._make_chunk (.pyTuple [.pyStr "doc/chunks/a", .pyStr "hello"]) =
      .ok { name := "doc/chunks/a", dataStringValue := "hello", customMetadata := [] }
  ∧ (∀ n d : String, Document._make_chunk (.pyTuple [.pyStr n, .pyStr d]) =
      .ok { name := n, dataStringValue := d, customMetadata := [] })
  ∧ (∀ (n d : String) (md : PyObj) (cms : List GlmCM),
       glm_custom_metadata_list md = .ok cms →
       Document._make_chunk (.pyTuple [.pyStr n, .pyStr d, md]) =
         .ok { name := n, dataStringValue := d, customMetadata := cms })
  ∧ (∀ xs : List PyObj, xs.length ≠ 2 → xs.length ≠ 3 →
       Document._make_chunk (.pyTuple xs) =
         .error (.valueError ("Tuples should have length 2 or 3, got length: " ++
           toString xs.length ++ "\nvalue: " ++ pyRepr (.pyTuple xs)))) := by
  refine ⟨rfl, fun n d => rfl, ?_, ?_⟩
  · intro n d md cms h
    simp [Document._make_chunk, glmChunk_mk, h, bind, Except.bind, pure, Except.pure]
  · intro xs h2 h3
    match xs with
    | [] => rfl
    | [a] => rfl
    | [a, b] => exact absurd rfl h2
    | [a, b, c] => exact absurd rfl h3
    | a :: b :: c :: d :: rest => rfl

/-- Witness for C8: the 3-tuple case at `("n", "d", None)` and the length
case at the 1-tuple `("a",)`. -/
theorem make_chunk_tuple_shapes_witness :
    Document._make_chunk (.pyTuple [.pyStr "n", .pyStr "d", .pyNone]) =
      .ok { name := "n", dataStringValue := "d", customMetadata := [] }
  ∧ Document._make_chunk (.pyTuple [.pyStr "a"]) =
      .error (.valueError ("Tuples should have length 2 or 3, got length: " ++
        toString ([PyObj.pyStr "a"]).length ++ "\nvalue: " ++ pyRepr (.pyTuple [.pyStr "a"]))) :=
  ⟨make_chunk_tuple_shapes.2.2.1 "n" "d" .pyNone [] rfl,
   make_chunk_tuple_shapes.2.2.2 [.pyStr "a"] (by decide) (by decide)⟩

/-- C10: `Chunk.__init__` assigns `self.data` only when the `data` argument
is a `str` or a `dict`; for any other input — including a `ChunkData`
instance, which the declared parameter type permits — the attribute is never
set, and a later access through `Chunk.to_dict` fails with
`AttributeError`. -/
theorem chunk_init_leaves_data_unset
    (name data custom_metadata state create_time update_time : PyObj) (c : Chunk)
    (hs : ∀ s, data ≠ .pyStr s) (hd : ∀ es, data ≠ .pyDict es)
    (hok : Chunk.init name data custom_metadata state create_time update_time = .ok c) :
    c.data = none ∧ Chunk.to_dict c = .error (.attributeError "data") := by
  have hdf : chunk_init_data data = .ok none := by
    cases data <;> first
      | rfl
      | exact absurd rfl (hs _)
      | exact absurd rfl (hd _)
  have hcd : c.data = none := by
    rw [Chunk.init] at hok
    rw [hdf] at hok
    simp only [bind, Except.bind] at hok
    cases h1 : chunk_init_custom_metadata custom_metadata <;> rw [h1] at hok
    case error e => cases hok
    case ok cmField =>
    cases h2 : chunk_init_state state <;> rw [h2] at hok
    case error e => cases hok
    case ok stField =>
    cases h3 : chunk_time_field create_time <;> rw [h3] at hok
    case error e => cases hok
    case ok ct =>
    cases h4 : chunk_time_field update_time <;> rw [h4] at hok
    case error e => cases hok
    case ok ut =>
    simp only [pure, Except.pure, Except.ok.injEq] at hok
    rw [← hok]
  refine ⟨hcd, ?_⟩
  rw [Chunk.to_dict, hcd]

/-- Witness for C10: constructing a chunk with `data=ChunkData("hi")` leaves
`data` unset and `to_dict` then fails. -/
theorem chunk_init_leaves_data_unset_witness :
    ({ name := .pyStr "doc/chunks/x", data := none, custom_metadata := .pyList [],
       state := .stateObj .STATE_ACTIVE, create_time := .pyNone, update_time := .pyNone,
       extra := [] } : Chunk).data = none
  ∧ Chunk.to_dict
      { name := .pyStr "doc/chunks/x", data := none, custom_metadata := .pyList [],
        state := .stateObj .STATE_ACTIVE, create_time := .pyNone, update_time := .pyNone,
        extra := [] } = .error (.attributeError "data") :=
  chunk_init_leaves_data_unset (.pyStr "doc/chunks/x") (.chunkDataObj (.pyStr "hi"))
    .pyNone (.pyInt 2) .pyNone .pyNone _
    (fun _ h => PyObj.noConfusion h) (fun _ h => PyObj.noConfusion h) rfl

/-- C7 (counterexample): the claim says `to_operator(6)` returns `INCLUDES`;
with Python dict-literal semantics the later duplicate key `6` (line 108)
overwrites the earlier INCLUDES entry, so `to_operator(6)` in fact returns
`EXCLUDES`. -/
theorem to_operator_six_counterexample :
    to_operator (.ik 6) = .ok .EXCLUDES ∧ to_operator (.ik 6) ≠ .ok .INCLUDES := by
  refine ⟨rfl, ?_⟩
  intro h
  have h1 : (Except.ok Operator.EXCLUDES : Except PyErr Operator) = .ok .INCLUDES := by
    rw [← h]; rfl
  injection h1 with h2
  cases h2

/-- C7 (amended): the duplicated numeric key `6` in the `_OPERATOR` dict
literal makes INCLUDES — not EXCLUDES — unreachable by numeric code: the
last-write-wins duplicate maps `6` to EXCLUDES, and no integer input to
`to_operator` yields INCLUDES (the only INCLUDES entries left in the table
are string-keyed). -/
theorem operator_numeric_code_never_includes :
    to_operator (.ik 6) = .ok .EXCLUDES
  ∧ (∀ (n : Int) (v : Operator), to_operator (.ik n) = .ok v → v ≠ .INCLUDES) := by
  refine ⟨rfl, ?_⟩
  intro n v h hv
  subst hv
  simp only [to_operator] at h
  cases hf : _OPERATOR.find? (fun kv => decide (kv.1 = .ik n)) <;> rw [hf] at h
  case none => cases h
  case some kv =>
  have hv2 : kv.2 = Operator.INCLUDES := by
    injection h
  have hmem := List.mem_of_find?_eq_some hf
  have hkey : kv.1 = .ik n := by simpa using List.find?_some hf
  have hall : _OPERATOR.all (fun kv =>
      decide (kv.2 ≠ Operator.INCLUDES) ||
        (match kv.1 with | .sk _ => true | _ => false)) = true := by decide
  have hthis := List.all_eq_true.mp hall kv hmem
  rw [hkey, hv2] at hthis
  simp at hthis

/-- Witness for C7's amended theorem: applying it at `n = 6` (where the
lookup returns EXCLUDES). -/
theorem operator_numeric_code_never_includes_witness :
    Operator.EXCLUDES ≠ Operator.INCLUDES :=
  operator_numeric_code_never_includes.2 6 .EXCLUDES rfl

/-- A flattened update containing some key other than the allowed one makes
the validation loop's `find?` fire (shared helper). -/
theorem exists_find?_bad (l : List (String × PyObj)) (allowed : String)
    (h : ∃ kv ∈ l, kv.1 ≠ allowed) :
    ∃ bad, l.find? (fun kv => decide (kv.1 ≠ allowed)) = some bad := by
  have hs : (l.find? (fun kv => decide (kv.1 ≠ allowed))).isSome := by
    refine List.find?_isSome.mpr ?_
    obtain ⟨kv, hm, hne⟩ := h
    exact ⟨kv, hm, by simpa using hne⟩
  exact Option.isSome_iff_exists.mp hs

/-- C1: whenever the flattened update spec of `Corpus.update`,
`Document.update` or `Chunk.update` (and their line-identical async
variants) contains any dotted path other than the entity type's sole mutable
field (`"display_name"` for Corpus and Document, `"data.string_value"` for
Chunk), the call raises the unsupported-field `ValueError` and never
constructs the update request — so no remote update call is issued.  For
`Chunk.update` the result holds whenever the metadata-conversion step that
precedes validation does not itself raise. -/
theorem update_unsupported_field_rejected :
    (∀ (c : Corpus) (u : List (String × PyObj)),
       (∃ kv ∈ flatten_update_paths u, kv.1 ≠ "display_name") →
       (Corpus.update c u).2 = .error (.valueError corpusUpdateErrMsg))
  ∧ (∀ (d : Document) (u : List (String × PyObj)),
       (∃ kv ∈ flatten_update_paths u, kv.1 ≠ "display_name") →
       (Document.update d u).2 = .error (.valueError documentUpdateErrMsg))
  ∧ (∀ (ch : Chunk) (u : List (String × PyObj)) (cd : List GlmCM),
       ch.collect_cdata = .ok cd →
       (∃ kv ∈ flatten_update_paths u, kv.1 ≠ "data.string_value") →
       ∃ bad ∈ flatten_update_paths u, bad.1 ≠ "data.string_value" ∧
         (Chunk.update ch u).2 = .error (.valueError (chunkUpdateErrMsg bad.1))) := by
  refine ⟨?_, ?_, ?_⟩
  · intro c u h
    obtain ⟨bad, hf⟩ := exists_find?_bad _ _ h
    simp only [ne_eq, decide_not] at hf
    simp [Corpus.update, hf]
  · intro d u h
    obtain ⟨bad, hf⟩ := exists_find?_bad _ _ h
    simp only [ne_eq, decide_not] at hf
    simp [Document.update, hf]
  · intro ch u cd hcd h
    obtain ⟨bad, hf⟩ := exists_find?_bad _ _ h
    refine ⟨bad, List.mem_of_find?_eq_some hf, by simpa using List.find?_some hf, ?_⟩
    simp only [ne_eq, decide_not] at hf
    simp [Chunk.update, hcd, hf]

/-- Witness for C1: `update({"title": "x"})` is rejected on a concrete
corpus, document and chunk. -/
theorem update_unsupported_field_rejected_witness :
    (Corpus.update
       { name := .pyStr "corpora/demo", display_name := .pyStr "demo",
         create_time := .pyNone, update_time := .pyNone, extra := [] }
       [("title", .pyStr "x")]).2 = .error (.valueError corpusUpdateErrMsg)
  ∧ (Document.update
       { name := .pyStr "corpora/demo/documents/d", display_name := .pyStr "d",
         custom_metadata := .pyList [], create_time := .pyNone, update_time := .pyNone,
         extra := [] }
       [("title", .pyStr "x")]).2 = .error (.valueError documentUpdateErrMsg)
  ∧ ∃ bad ∈ flatten_update_paths [("title", PyObj.pyStr "x")],
       bad.1 ≠ "data.string_value" ∧
       (Chunk.update
          { name := .pyStr "corpora/demo/documents/d/chunks/c",
            data := some (.chunkDataObj (.pyStr "hi")), custom_metadata := .pyList [],
            state := .stateObj .STATE_ACTIVE, create_time := .pyNone,
            update_time := .pyNone, extra := [] }
          [("title", .pyStr "x")]).2 = .error (.valueError (chunkUpdateErrMsg bad.1)) := by
  have hmem : ("title", PyObj.pyStr "x") ∈ flatten_update_paths [("title", PyObj.pyStr "x")] := by
    simp [flatten_update_paths, flatSeq, dictInsert]
  have hex : ∃ kv ∈ flatten_update_paths [("title", PyObj.pyStr "x")], kv.1 ≠ "display_name" :=
    ⟨("title", .pyStr "x"), hmem, by decide⟩
  have hex2 : ∃ kv ∈ flatten_update_paths [("title", PyObj.pyStr "x")], kv.1 ≠ "data.string_value" :=
    ⟨("title", .pyStr "x"), hmem, by decide⟩
  exact ⟨update_unsupported_field_rejected.1 _ _ hex,
         update_unsupported_field_rejected.2.1 _ _ hex,
         update_unsupported_field_rejected.2.2 _ _ [] rfl hex2⟩

/-- C9: `Chunk.update` (and its line-identical `update_async`) replaces
`self.custom_metadata` with the wire-proto conversion of each entry *before*
validating the flattened update paths, so when the unsupported-field
`ValueError` is raised the chunk instance has already been mutated: the
returned state carries the converted protos, which (for a non-empty
metadata list) differ from the original entries — the error branch is not
atomic with respect to the entity's state. -/
theorem chunk_update_mutates_before_validation
    (ch : Chunk) (u : List (String × PyObj)) (cs : List PyObj) (cd : List GlmCM)
    (bad : String × PyObj)
    (hcm : ch.custom_metadata = .pyList cs)
    (hcd : ch.collect_cdata = .ok cd)
    (hf : (flatten_update_paths u).find? (fun kv => decide (kv.1 ≠ "data.string_value")) =
      some bad) :
    Chunk.update ch u =
      ({ ch with custom_metadata := .pyList (cd.map .glmCustomMetadataObj) },
       .error (.valueError (chunkUpdateErrMsg bad.1)))
  ∧ (cs ≠ [] → PyObj.pyList (cd.map .glmCustomMetadataObj) ≠ .pyList cs) := by
  constructor
  · simp only [ne_eq, decide_not] at hf
    simp [Chunk.update, hcd, hf]
  · intro hne heq
    cases cs with
    | nil => exact hne rfl
    | cons a as =>
      rw [Chunk.collect_cdata, hcm] at hcd
      simp only [pyTruthy, List.isEmpty, bind, Except.bind, pyIter, if_true] at hcd
      rw [List.mapM_cons] at hcd
      cases h1 : obj_to_proto a <;> rw [h1] at hcd
      case error e => simp [bind, Except.bind] at hcd
      case ok b =>
      cases h2 : as.mapM obj_to_proto <;> rw [h2] at hcd
      case error e => simp [bind, Except.bind] at hcd
      case ok bs =>
      simp only [bind, Except.bind, pure, Except.pure, Bool.not_false, if_true,
        Except.ok.injEq] at hcd
      have ha : ∃ k v, a = PyObj.customMetadataObj k v := by
        cases a <;> first
          | exact absurd h1 (by intro hx; cases hx)
          | exact ⟨_, _, rfl⟩
      obtain ⟨k, v, rfl⟩ := ha
      rw [← hcd] at heq
      simp at heq

/-- Witness for C9: a chunk with one metadata entry updated with
`{"display_name": "t"}` ends up holding the proto conversion of that entry
while the call fails. -/
theorem chunk_update_mutates_before_validation_witness :
    Chunk.update
      { name := .pyStr "corpora/demo/documents/d/chunks/c",
        data := some (.chunkDataObj (.pyStr "hi")),
        custom_metadata := .pyList [.customMetadataObj (.pyStr "k") (.pyStr "v")],
        state := .stateObj .STATE_ACTIVE, create_time := .pyNone, update_time := .pyNone,
        extra := [] }
      [("display_name", .pyStr "t")] =
      ({ name := .pyStr "corpora/demo/documents/d/chunks/c",
         data := some (.chunkDataObj (.pyStr "hi")),
         custom_metadata := .pyList [.glmCustomMetadataObj ⟨"k", .stringValue "v"⟩],
         state := .stateObj .STATE_ACTIVE, create_time := .pyNone, update_time := .pyNone,
         extra := [] },
       .error (.valueError (chunkUpdateErrMsg "display_name")))
  ∧ PyObj.pyList ([⟨"k", GlmMetaValue.stringValue "v"⟩].map .glmCustomMetadataObj) ≠
      .pyList [.customMetadataObj (.pyStr "k") (.pyStr "v")] := by
  have hf : (flatten_update_paths [("display_name", PyObj.pyStr "t")]).find?
      (fun kv => decide (kv.1 ≠ "data.string_value")) =
      some ("display_name", PyObj.pyStr "t") := by
    have : flatten_update_paths [("display_name", PyObj.pyStr "t")] =
        [("display_name", PyObj.pyStr "t")] := by
      simp [flatten_update_paths, flatSeq, dictInsert]
    rw [this]
    rfl
  have h := chunk_update_mutates_before_validation
    { name := .pyStr "corpora/demo/documents/d/chunks/c",
      data := some (.chunkDataObj (.pyStr "hi")),
      custom_metadata := .pyList [.customMetadataObj (.pyStr "k") (.pyStr "v")],
      state := .stateObj .STATE_ACTIVE, create_time := .pyNone, update_time := .pyNone,
      extra := [] }
    [("display_name", .pyStr "t")]
    [.customMetadataObj (.pyStr "k") (.pyStr "v")]
    [⟨"k", .stringValue "v"⟩]
    ("display_name", .pyStr "t")
    rfl rfl hf
  exact ⟨h.1, h.2 (by intro hx; cases hx)⟩

/-- C4 (counterexample): the claim says every string of lowercase
alphanumerics/hyphens of length 1–39 that is not all hyphens is accepted,
and every string containing a disallowed character is rejected — but the
regex body `[a-z0-9]([a-z0-9-]{0,38}[a-z0-9])$` needs at least two
characters, so the length-1 name `"a"` is rejected, while `$` also matches
just before a trailing newline, so `"ab\n"` (which contains the disallowed
`'\n'`) is accepted. -/
theorem valid_name_counterexample :
    valid_name "a" = false ∧ valid_name "ab\n" = true := by
  constructor <;> decide

/-- An allowed character that is not lowercase alphanumeric can only be the
hyphen (shared helper). -/
theorem lowerAlnum_false_of_nameClass_false {c : Char} (h : nameClass c = false) :
    lowerAlnum c = false := by
  cases hl : lowerAlnum c
  · rfl
  · rw [nameClass, hl] at h
    simp at h

/-- A character outside the `[a-z0-9-]` class anywhere in a candidate body
defeats the regex body match (shared helper). -/
theorem matchesBody_false_of_bad (pre post : List Char) (c : Char)
    (hc : nameClass c = false) : matchesBody (pre ++ c :: post) = false := by
  have hla : lowerAlnum c = false := lowerAlnum_false_of_nameClass_false hc
  cases pre with
  | nil =>
      unfold matchesBody
      have hh : (([] : List Char) ++ c :: post).headD '-' = c := rfl
      rw [hh, hla]
      simp
  | cons p ps =>
      cases post with
      | nil =>
          have he : (p :: ps) ++ c :: [] = (p :: ps) ++ [c] := rfl
          rw [he]
          unfold matchesBody
          rw [List.getLastD_concat, hla]
          simp
      | cons q qs =>
          have hmem : c ∈ (((p :: ps) ++ c :: q :: qs).drop 1).dropLast := by
            simp only [List.cons_append, List.drop_succ_cons, List.drop_zero]
            rw [List.dropLast_append_of_ne_nil ps (by simp)]
            simp [List.dropLast_cons₂]
          cases hall : ((((p :: ps) ++ c :: q :: qs).drop 1).dropLast).all nameClass
          · unfold matchesBody
            rw [hall]
            simp
          · exact absurd (List.all_eq_true.mp hall c hmem) (by simp [hc])

/-- C4 (amended): `valid_name` returns a truthy value exactly on the regex's
terms — (a) every string of length 2 to 39 made of lowercase
alphanumerics/hyphens whose first and last characters are alphanumeric is
accepted; (b) every string of length 40 or more is rejected; (c) every
string containing a character outside `[a-z0-9-]` at any position other
than a single trailing newline is rejected (a trailing `'\n'` alone may
still be accepted, because Python's `$` matches before it). -/
theorem valid_name_amended :
    (∀ s : String, 2 ≤ s.data.length → s.data.length ≤ 39 →
       s.data.all nameClass = true →
       lowerAlnum (s.data.headD '-') = true → lowerAlnum (s.data.getLastD '-') = true →
       valid_name s = true)
  ∧ (∀ s : String, 40 ≤ s.length → valid_name s = false)
  ∧ (∀ (s : String) (pre : List Char) (c : Char) (post : List Char),
       s.data = pre ++ c :: post → nameClass c = false →
       ¬(post = [] ∧ c = '\n') →
       valid_name s = false) := by
  refine ⟨?_, ?_, ?_⟩
  · intro s h2 h39 hall hh hl
    have hmid : ((s.data.drop 1).dropLast).all nameClass = true := by
      refine List.all_eq_true.mpr ?_
      intro x hx
      refine List.all_eq_true.mp hall x ?_
      exact ((s.data.drop 1).dropLast_sublist.trans (List.drop_sublist 1 s.data)).subset hx
    have hbody : matchesBody s.data = true := by
      have h40 : s.data.length ≤ 40 := by omega
      unfold matchesBody
      rw [hh, hl, hmid, decide_eq_true h2, decide_eq_true h40]
      rfl
    have hlen : s.length < 40 := by
      have he : s.length = s.data.length := rfl
      omega
    unfold valid_name reMatchValidName
    rw [hbody, decide_eq_true hlen]
    simp
  · intro s h
    have h' : ¬(s.length < 40) := by omega
    unfold valid_name
    rw [decide_eq_false h']
    simp
  · intro s pre c post hs hc hnl
    have hb1 : matchesBody s.data = false := by
      rw [hs]; exact matchesBody_false_of_bad pre post c hc
    have hb2 : (decide (s.data.getLastD ' ' = '\n') && matchesBody s.data.dropLast) = false := by
      cases post with
      | nil =>
          have hcne : c ≠ '\n' := fun h => hnl ⟨rfl, h⟩
          have he : pre ++ c :: [] = pre ++ [c] := rfl
          rw [hs, he, List.getLastD_concat, decide_eq_false hcne]
          simp
      | cons q qs =>
          have hdl : (pre ++ c :: q :: qs).dropLast = pre ++ c :: (q :: qs).dropLast := by
            rw [List.dropLast_append_of_ne_nil pre (by simp), List.dropLast_cons₂]
          rw [hs, hdl]
          rw [matchesBody_false_of_bad pre ((q :: qs).dropLast) c hc]
          simp
    unfold valid_name reMatchValidName
    rw [hb1, hb2]
    simp

/-- Witness for C4's amended theorem: `"abc"` is accepted; the 40-character
all-`a` name is rejected; `"ab!"` (a disallowed `'!'`, not a trailing
newline) is rejected. -/
theorem valid_name_amended_witness :
    valid_name "abc" = true
  ∧ valid_name "aaaaaaaaaaaaaaaaaaaaaaaaaaaaaaaaaaaaaaaa" = false
  ∧ valid_name "ab!" = false :=
  ⟨valid_name_amended.1 "abc" (by decide) (by decide) (by decide) (by decide) (by decide),
   valid_name_amended.2.1 "aaaaaaaaaaaaaaaaaaaaaaaaaaaaaaaaaaaaaaaa" (by decide),
   valid_name_amended.2.2 "ab!" ['a', 'b'] '!' [] (by decide) (by decide) (by decide)⟩
